import Mathlib

/-!
Shallow embedding of `src/app.js` (TeenMe AI chatbot backend): an Express
server with Mongoose persistence, JWT auth, and a mock chat responder.

Modelling conventions:
- JSON field values that matter to the claims are modelled by `JVal`
  (strings, `null`, numbers); a persisted Mongo document is an association
  list of field name to value where field-level structure matters
  (the `Message` collection), and a plain structure where every write
  supplies exactly the schema fields (the `User` collection).
- Mongoose is used with its default strict mode: `Model.create` persists
  only the paths declared in the schema and fills declared defaults.
  The `Message` schema (app.js lines 24-29) declares `sessionId`, `text`,
  `sender`, `timestamp` — and no `userId` path.
- `uuid.v4()` is a random globally-unique id generator; it is modelled as
  an injective fresh-identifier supply indexed by a per-process counter
  (`ChatState.uuidCounter`): successive calls yield distinct non-empty
  strings, which is the only property the code relies on.
- `jwt.sign(payload, secret, 1h)` / `jwt.verify` : the issued token is
  modelled as the signed payload together with its validity window
  (`Jwt`); the auth gate's `jwt.verify` on a header-carried token string
  is modelled as an abstract parameter `verify : String → Option Payload`
  (returning `none` on malformed/bad-signature/expired tokens), since the
  gate's behavior is uniform in it.
- `await` points that can throw on store failure are modelled by explicit
  boolean failure flags; time (`Date.now`) by a `now : Nat` parameter.
-/

namespace TeenMe

/-- A JSON-ish value as it appears in request bodies and persisted docs. -/
inductive JVal where
  | vstr (s : String)
  | vnull
  | vnum (n : Nat)
deriving DecidableEq

/-- A persisted document of the `Message` collection: an association list
of field name to value (field-level structure matters here because the
schema filters the paths that get persisted). -/
abbrev Doc := List (String × JVal)

/-- The JWT payload `{ userId, username }` signed at registration/login
(app.js lines 77-81, 110-114) and decoded by the auth gate. -/
structure Payload where
  userId : Nat
  username : String
deriving DecidableEq

/-- The paths declared by the `Message` schema (app.js lines 24-29):
`sessionId`, `text`, `sender`, and `timestamp` (with default `Date.now`).
Note the schema declares no `userId` path. -/
def messageSchemaFields : List String := ["sessionId", "text", "sender", "timestamp"]

/-- The call `Message.create(input)`: Mongoose with default strict mode persists
only schema-declared paths of the input and fills the `timestamp`
default. The chat handler never supplies `timestamp`, so the default
always applies. -/
def messageCreate (now : Nat) (input : Doc) : Doc :=
  input.filter (fun kv => messageSchemaFields.contains kv.1) ++ [("timestamp", JVal.vnum now)]

/-- The generator `uuidv4()` modelled as a fresh-identifier supply: the `n`-th call of
the process yields a non-empty string distinct from every other call's
(the injectivity stands in for global uniqueness of random v4 UUIDs). -/
def uuidv4 (n : Nat) : String := String.mk (List.replicate (n + 1) 'u')

/-- The `sessionId` field of the chat request body. JS distinguishes an
absent/`undefined` field (destructuring default applies) from `null` and
from a string (default does not apply), app.js line 154. -/
inductive SessionField where
  | undef
  | null
  | str (s : String)
deriving DecidableEq

/-- Mutable server-side state touched by the chat endpoint: the `Message`
collection (append-only list, insertion order) and the uuid supply
counter. -/
structure ChatState where
  messages : List Doc
  uuidCounter : Nat
deriving DecidableEq

/-- The mock AI response (app.js line 166):
`` `I received: "${message}". This is a mock response.` `` -/
def respond (message : String) : String :=
  "I received: \"" ++ message ++ "\". This is a mock response."

/-- The fields passed to the first `Message.create` call of the chat
handler (app.js lines 158-163): the user turn, including a `userId` pair
that the schema does not declare. -/
def userMsgInput (p : Payload) (message : String) (sid : JVal) : Doc :=
  [("sessionId", sid), ("text", JVal.vstr message),
   ("sender", JVal.vstr "user"), ("userId", JVal.vnum p.userId)]

/-- The fields passed to the second `Message.create` call of the chat
handler (app.js lines 169-174): the bot turn. -/
def botMsgInput (p : Payload) (message : String) (sid : JVal) : Doc :=
  [("sessionId", sid), ("text", JVal.vstr (respond message)),
   ("sender", JVal.vstr "bot"), ("userId", JVal.vnum p.userId)]

/-- Outcome of `POST /api/chat` past the auth gate: 200 with
`{ response, sessionId }`, or 500 `{ error: "Chat processing failed" }`.
Each outcome carries the server state after the handler ran (including
partial writes on the 500 path). -/
inductive ChatResult where
  | ok (response : String) (sessionId : JVal) (st : ChatState)
  | err500 (error : String) (st : ChatState)
deriving DecidableEq

/-- The chat handler body (app.js lines 152-181), after `authenticate`
attached the decoded payload `p`. `fail1`/`fail2` model a store failure
thrown by the first/second `Message.create` await; a failure aborts into
the catch-all 500 branch. `uuidv4` is consumed only when the body's
`sessionId` is absent (destructuring default, line 154). -/
def chatHandler (p : Payload) (message : String) (sessionField : SessionField)
    (fail1 fail2 : Bool) (now : Nat) (st : ChatState) : ChatResult :=
  let sidSt :=
    match sessionField with
    | .undef => (JVal.vstr (uuidv4 st.uuidCounter),
                 { st with uuidCounter := st.uuidCounter + 1 })
    | .null => (JVal.vnull, st)
    | .str s => (JVal.vstr s, st)
  let sid := sidSt.1
  let st1 := sidSt.2
  if fail1 then .err500 "Chat processing failed" st1
  else
    let st2 := { st1 with
      messages := st1.messages ++ [messageCreate now (userMsgInput p message sid)] }
    if fail2 then .err500 "Chat processing failed" st2
    else
      let st3 := { st2 with
        messages := st2.messages ++ [messageCreate now (botMsgInput p message sid)] }
      .ok (respond message) sid st3

/-- Removes the first occurrence of `pat` from a character list, the
semantics of JS `String.prototype.replace` with a string pattern. -/
def replaceFirstAux (pat : List Char) : List Char → List Char
  | [] => []
  | c :: cs =>
    if pat.isPrefixOf (c :: cs) then List.drop pat.length (c :: cs)
    else c :: replaceFirstAux pat cs

/-- The token extraction `header.replace` with pattern `"Bearer "` and
empty replacement (app.js line 40): removes the first literal occurrence
of `"Bearer "`, leaving the string unchanged when the substring does not
occur. -/
def stripBearer (header : String) : String :=
  String.mk (replaceFirstAux "Bearer ".data header.data)

/-- Whether `pat` occurs as a contiguous subsequence, mirroring the scan
of `replaceFirstAux`. -/
def containsSeq (pat : List Char) : List Char → Bool
  | [] => pat.isPrefixOf []
  | c :: cs => pat.isPrefixOf (c :: cs) || containsSeq pat cs

/-- Outcome of the `authenticate` middleware (app.js lines 39-50). -/
inductive AuthResult where
  | denied401
  | invalid400
  | proceed (p : Payload)
deriving DecidableEq

/-- The `authenticate` middleware (app.js lines 39-50). `header` is the
`Authorization` header (`none` when absent). The token is the header
with the first `"Bearer "` occurrence stripped; a missing header or an
empty stripped token is falsy (`!token`) and yields 401; otherwise
`jwt.verify` (the abstract `verify`) decides 400 vs. attaching the
decoded payload and proceeding. The check takes no store argument: it is
synchronous and performs no Credential Store lookup. -/
def authenticate (verify : String → Option Payload) (header : Option String) : AuthResult :=
  match header with
  | none => .denied401
  | some h =>
    let token := stripBearer h
    if token = "" then .denied401
    else
      match verify token with
      | some p => .proceed p
      | none => .invalid400

/-- A stored user record; the `User` schema (app.js lines 31-36) declares
`username`, `email`, `password`, `createdAt` (default `Date.now`), plus
the store-assigned `_id`. Registration supplies exactly the schema
fields, so a plain structure is faithful here. -/
structure UserDoc where
  id : Nat
  username : String
  email : String
  password : String
  createdAt : Nat
deriving DecidableEq

/-- The `User` collection in insertion order, plus the store's id supply. -/
structure UserStore where
  users : List UserDoc
  nextId : Nat
deriving DecidableEq

/-- An issued token: `jwt.sign` of the payload with the process secret
and a one-hour expiry, modelled as the signed payload with its validity
window. -/
structure Jwt where
  payload : Payload
  iat : Nat
  exp : Nat
deriving DecidableEq

/-- Signing at time `now` with a one-hour expiry. -/
def jwtSign (p : Payload) (now : Nat) : Jwt :=
  ⟨p, now, now + 3600⟩

/-- The `user` summary object returned by register and login
(app.js lines 86-90, 119-123). -/
structure UserSummary where
  id : Nat
  username : String
  email : String
deriving DecidableEq

/-- JS falsiness of an optional string body field (`!username` is true
for an absent field and for the empty string). -/
def falsy : Option String → Bool
  | none => true
  | some s => s = ""

/-- Outcome of `POST /api/auth/register` (app.js lines 53-97); each
outcome carries the user store after the handler ran. -/
inductive RegisterResult where
  | badRequest400 (error : String) (st : UserStore)
  | conflict409 (error : String) (st : UserStore)
  | created201 (token : Jwt) (user : UserSummary) (st : UserStore)
deriving DecidableEq

/-- The registration handler (app.js lines 53-97): falsy-field check,
then `User.findOne({$or: [{username}, {email}]})` (first stored user
matching either field, insertion order), then create + token issue. -/
def register (username email password : Option String) (now : Nat)
    (st : UserStore) : RegisterResult :=
  if falsy username || falsy email || falsy password then
    .badRequest400 "All fields are required" st
  else
    let u := username.getD ""
    let e := email.getD ""
    let pw := password.getD ""
    match st.users.find? (fun x => x.username = u || x.email = e) with
    | some existingUser =>
      .conflict409
        (if existingUser.username = u then "Username already exists"
         else "Email already registered") st
    | none =>
      let newUser : UserDoc := ⟨st.nextId, u, e, pw, now⟩
      .created201 (jwtSign ⟨newUser.id, newUser.username⟩ now)
        ⟨newUser.id, newUser.username, newUser.email⟩
        ⟨st.users ++ [newUser], st.nextId + 1⟩

/-- Outcome of `POST /api/auth/login` (app.js lines 100-128). -/
inductive LoginResult where
  | unauthorized401 (error : String)
  | ok200 (token : Jwt) (user : UserSummary)
deriving DecidableEq

/-- The login handler (app.js lines 100-128): `User.findOne({email})`,
then a plaintext `!==` comparison of the stored and supplied passwords
(no hashing), then token issue. -/
def login (email password : String) (now : Nat) (st : UserStore) : LoginResult :=
  match st.users.find? (fun x => x.email = email) with
  | none => .unauthorized401 "Invalid credentials"
  | some user =>
    if user.password ≠ password then .unauthorized401 "Invalid credentials"
    else .ok200 (jwtSign ⟨user.id, user.username⟩ now) ⟨user.id, user.username, user.email⟩

/-- A user record as returned by `findById` followed by a select of
every stored field minus `password`. -/
structure UserPublic where
  id : Nat
  username : String
  email : String
  createdAt : Nat
deriving DecidableEq

/-- Outcome of `GET /api/auth/me` past the auth gate (app.js lines
131-138): `res.json(user)` answers 200 with the found record or with
JSON `null` (`none`) when `findById` matches nothing; the catch branch
answers 500 only when the lookup itself fails (`lookupFails`). -/
inductive MeResult where
  | ok200 (body : Option UserPublic)
  | err500 (error : String)
deriving DecidableEq

/-- The profile handler body (app.js lines 131-138), after `authenticate`
attached the decoded payload `p`. -/
def meHandler (p : Payload) (lookupFails : Bool) (st : UserStore) : MeResult :=
  if lookupFails then .err500 "Server error"
  else
    .ok200 ((st.users.find? (fun x => x.id = p.userId)).map
      (fun u => ⟨u.id, u.username, u.email, u.createdAt⟩))

/-- Result of a protected route: the gate's 401/400, or the handler's
outcome. -/
inductive Routed (α : Type) where
  | unauthenticated401
  | invalidToken400
  | handled (r : α)

/-- Route composition `app.get(path, authenticate, handler)`: the handler
runs exactly when the gate proceeds, receiving the decoded payload. -/
def protect {α : Type} (verify : String → Option Payload) (header : Option String)
    (handler : Payload → α) : Routed α :=
  match authenticate verify header with
  | .denied401 => .unauthenticated401
  | .invalid400 => .invalidToken400
  | .proceed p => .handled (handler p)

/-- Route `GET /api/auth/me` end to end (app.js line 131). -/
def meRoute (verify : String → Option Payload) (header : Option String)
    (lookupFails : Bool) (st : UserStore) : Routed MeResult :=
  protect verify header (fun p => meHandler p lookupFails st)

/-- Route `POST /api/chat` end to end (app.js line 152). -/
def chatRoute (verify : String → Option Payload) (header : Option String)
    (message : String) (sessionField : SessionField) (fail1 fail2 : Bool)
    (now : Nat) (st : ChatState) : Routed ChatResult :=
  protect verify header (fun p => chatHandler p message sessionField fail1 fail2 now st)

end TeenMe

namespace TeenMe

/-! ### Helper lemmas shared across the claim theorems -/

/-- The fresh-identifier supply yields strings of strictly increasing
length, the source of injectivity and non-emptiness. -/
theorem uuidv4_length (n : Nat) : (uuidv4 n).length = n + 1 := by
  simp [uuidv4, String.length]

/-- Distinct supply indices yield distinct identifiers. -/
theorem uuidv4_inj (m n : Nat) (h : uuidv4 m = uuidv4 n) : m = n := by
  have h2 := congrArg String.length h
  simp only [uuidv4_length] at h2
  omega

/-- Every generated identifier is non-empty. -/
theorem uuidv4_ne_empty (n : Nat) : uuidv4 n ≠ "" := by
  intro h
  have h2 := congrArg String.length h
  simp [uuidv4_length] at h2

/-- Computation of a successful chat call with an absent `sessionId`. -/
theorem chatHandler_undef_eq (p : Payload) (m : String) (now : Nat) (st : ChatState) :
    chatHandler p m .undef false false now st =
      .ok (respond m) (JVal.vstr (uuidv4 st.uuidCounter))
        ⟨st.messages ++ [messageCreate now (userMsgInput p m (JVal.vstr (uuidv4 st.uuidCounter))),
          messageCreate now (botMsgInput p m (JVal.vstr (uuidv4 st.uuidCounter)))],
         st.uuidCounter + 1⟩ := by
  simp [chatHandler]

/-- Computation of a successful chat call with a `null` `sessionId`. -/
theorem chatHandler_null_eq (p : Payload) (m : String) (now : Nat) (st : ChatState) :
    chatHandler p m .null false false now st =
      .ok (respond m) JVal.vnull
        ⟨st.messages ++ [messageCreate now (userMsgInput p m JVal.vnull),
          messageCreate now (botMsgInput p m JVal.vnull)], st.uuidCounter⟩ := by
  simp [chatHandler]

/-- Computation of a successful chat call with a string `sessionId`. -/
theorem chatHandler_str_eq (p : Payload) (m s : String) (now : Nat) (st : ChatState) :
    chatHandler p m (.str s) false false now st =
      .ok (respond m) (JVal.vstr s)
        ⟨st.messages ++ [messageCreate now (userMsgInput p m (JVal.vstr s)),
          messageCreate now (botMsgInput p m (JVal.vstr s))], st.uuidCounter⟩ := by
  simp [chatHandler]

/-- Field lookups on the persisted user turn: the schema keeps
`sender`, `text`, `sessionId` and drops the undeclared `userId`. -/
theorem userMsg_lookups (p : Payload) (m : String) (sid : JVal) (now : Nat) :
    (messageCreate now (userMsgInput p m sid)).lookup "sender" = some (JVal.vstr "user") ∧
    (messageCreate now (userMsgInput p m sid)).lookup "text" = some (JVal.vstr m) ∧
    (messageCreate now (userMsgInput p m sid)).lookup "sessionId" = some sid ∧
    (messageCreate now (userMsgInput p m sid)).lookup "userId" = none := by
  simp [messageCreate, userMsgInput, messageSchemaFields, List.lookup]

/-- Field lookups on the persisted bot turn. -/
theorem botMsg_lookups (p : Payload) (m : String) (sid : JVal) (now : Nat) :
    (messageCreate now (botMsgInput p m sid)).lookup "sender" = some (JVal.vstr "bot") ∧
    (messageCreate now (botMsgInput p m sid)).lookup "text" = some (JVal.vstr (respond m)) ∧
    (messageCreate now (botMsgInput p m sid)).lookup "sessionId" = some sid ∧
    (messageCreate now (botMsgInput p m sid)).lookup "userId" = none := by
  simp [messageCreate, botMsgInput, messageSchemaFields, List.lookup]

/-- A successful chat call answers exactly the mock transformation of the
input text. -/
theorem chat_ok_response (p : Payload) (m : String) (sf : SessionField) (now : Nat)
    (st : ChatState) (r : String) (sid : JVal) (st' : ChatState)
    (h : chatHandler p m sf false false now st = .ok r sid st') : r = respond m := by
  cases sf with
  | undef => rw [chatHandler_undef_eq] at h; cases h; rfl
  | null => rw [chatHandler_null_eq] at h; cases h; rfl
  | str s => rw [chatHandler_str_eq] at h; cases h; rfl

/-- A list is a Boolean prefix of itself followed by anything. -/
theorem isPrefixOf_append_self (l t : List Char) : l.isPrefixOf (l ++ t) = true := by
  induction l with
  | nil => simp
  | cons a l ih => simp [List.isPrefixOf, ih]

/-- When the pattern does not occur, first-occurrence replacement is the
identity. -/
theorem replaceFirstAux_of_not_contains (pat s : List Char)
    (h : containsSeq pat s = false) : replaceFirstAux pat s = s := by
  induction s with
  | nil => rfl
  | cons c cs ih =>
    simp only [containsSeq, Bool.or_eq_false_iff] at h
    simp only [replaceFirstAux, h.1, Bool.false_eq_true, if_false]
    rw [ih h.2]

/-- First-occurrence replacement removes a leading copy of the pattern. -/
theorem replaceFirstAux_append (pat t : List Char) (hne : pat ≠ []) :
    replaceFirstAux pat (pat ++ t) = t := by
  cases pat with
  | nil => exact absurd rfl hne
  | cons p ps =>
    show replaceFirstAux (p :: ps) ((p :: ps) ++ t) = t
    rw [List.cons_append]
    simp only [replaceFirstAux]
    rw [← List.cons_append, isPrefixOf_append_self]
    simp [List.drop_left]

/-- A header not containing `"Bearer "` passes through token extraction
unchanged. -/
theorem stripBearer_of_not_contains (s : String)
    (h : containsSeq "Bearer ".data s.data = false) : stripBearer s = s := by
  unfold stripBearer
  rw [replaceFirstAux_of_not_contains _ _ h]

/-- Token extraction removes a leading `"Bearer "` prefix exactly. -/
theorem stripBearer_prefixed (t : String) : stripBearer ("Bearer " ++ t) = t := by
  unfold stripBearer
  have hdata : ("Bearer " ++ t).data = "Bearer ".data ++ t.data := rfl
  rw [hdata, replaceFirstAux_append _ _ (by decide)]

/-! ### Claim theorems -/

/-- C1 (code bug): the spec says both persisted chat turns carry a
`userId` field equal to the authenticated caller, and the handler does
pass `userId` to both `Message.create` calls — but the `Message` schema
declares no `userId` path, so strict-mode persistence drops it: on a
concrete successful chat call, both persisted documents have no `userId`
field at all. -/
theorem chat_persisted_without_userId :
    ∃ (r : String) (sid : JVal) (st' : ChatState),
      chatHandler ⟨5, "alice"⟩ "hi" .undef false false 100 ⟨[], 0⟩ = .ok r sid st' ∧
      st'.messages.length = 2 ∧
      ∀ d ∈ st'.messages, d.lookup "userId" = none := by
  refine ⟨respond "hi", JVal.vstr (uuidv4 0),
    ⟨[messageCreate 100 (userMsgInput ⟨5, "alice"⟩ "hi" (JVal.vstr (uuidv4 0))),
      messageCreate 100 (botMsgInput ⟨5, "alice"⟩ "hi" (JVal.vstr (uuidv4 0)))], 1⟩,
    by decide, by decide, by decide⟩

/-- C2: every successful chat call appends exactly two messages in
order — first the user turn with the input text, then the bot turn with
the computed response — both with the returned `sessionId`; when the
request omits `sessionId`, the returned one is the freshly generated
non-empty identifier of this call, distinct from the identifier of every
other call that omits `sessionId` (any call made from a later supply
state). -/
theorem chat_success_two_messages :
    ∀ (p : Payload) (message : String) (sf : SessionField) (now : Nat) (st : ChatState)
      (r : String) (sid : JVal) (st' : ChatState),
      chatHandler p message sf false false now st = .ok r sid st' →
      (∃ d1 d2 : Doc,
        st'.messages = st.messages ++ [d1, d2] ∧
        d1.lookup "sender" = some (JVal.vstr "user") ∧
        d1.lookup "text" = some (JVal.vstr message) ∧
        d2.lookup "sender" = some (JVal.vstr "bot") ∧
        d2.lookup "text" = some (JVal.vstr r) ∧
        d1.lookup "sessionId" = some sid ∧
        d2.lookup "sessionId" = some sid ∧
        r = respond message) ∧
      (sf = .undef →
        sid = JVal.vstr (uuidv4 st.uuidCounter) ∧
        sid ≠ JVal.vstr "" ∧
        st'.uuidCounter = st.uuidCounter + 1 ∧
        ∀ (p2 : Payload) (m2 : String) (now2 : Nat) (r2 : String) (sid2 : JVal)
          (st2 st2' : ChatState),
          st.uuidCounter < st2.uuidCounter →
          chatHandler p2 m2 .undef false false now2 st2 = .ok r2 sid2 st2' →
          sid2 ≠ sid) := by
  intro p message sf now st r sid st' h
  cases sf with
  | undef =>
    rw [chatHandler_undef_eq] at h
    cases h
    refine ⟨⟨_, _, rfl, ?_⟩, ?_⟩
    · obtain ⟨h1, h2, h3, -⟩ := userMsg_lookups p message (JVal.vstr (uuidv4 st.uuidCounter)) now
      obtain ⟨g1, g2, g3, -⟩ := botMsg_lookups p message (JVal.vstr (uuidv4 st.uuidCounter)) now
      exact ⟨h1, h2, g1, g2, h3, g3, rfl⟩
    · intro _
      refine ⟨rfl, ?_, rfl, ?_⟩
      · intro hc
        exact uuidv4_ne_empty st.uuidCounter (JVal.vstr.inj hc)
      · intro p2 m2 now2 r2 sid2 st2 st2' hlt h2
        rw [chatHandler_undef_eq] at h2
        cases h2
        intro hc
        have := uuidv4_inj _ _ (JVal.vstr.inj hc)
        omega
  | null =>
    rw [chatHandler_null_eq] at h
    cases h
    refine ⟨⟨_, _, rfl, ?_⟩, by intro hc; cases hc⟩
    obtain ⟨h1, h2, h3, -⟩ := userMsg_lookups p message JVal.vnull now
    obtain ⟨g1, g2, g3, -⟩ := botMsg_lookups p message JVal.vnull now
    exact ⟨h1, h2, g1, g2, h3, g3, rfl⟩
  | str s =>
    rw [chatHandler_str_eq] at h
    cases h
    refine ⟨⟨_, _, rfl, ?_⟩, by intro hc; cases hc⟩
    obtain ⟨h1, h2, h3, -⟩ := userMsg_lookups p message (JVal.vstr s) now
    obtain ⟨g1, g2, g3, -⟩ := botMsg_lookups p message (JVal.vstr s) now
    exact ⟨h1, h2, g1, g2, h3, g3, rfl⟩

/-- Concrete instance of the C2 theorem: a chat call with message
`"hello"` and no `sessionId` from the empty state, followed by a second
call that also omits `sessionId`. -/
theorem chat_success_two_messages_witness :
    (∃ d1 d2 : Doc,
      (ChatState.mk
        [messageCreate 0 (userMsgInput ⟨1, "alice"⟩ "hello" (JVal.vstr (uuidv4 0))),
         messageCreate 0 (botMsgInput ⟨1, "alice"⟩ "hello" (JVal.vstr (uuidv4 0)))] 1).messages =
        ([] : List Doc) ++ [d1, d2] ∧
      d1.lookup "sender" = some (JVal.vstr "user") ∧
      d1.lookup "text" = some (JVal.vstr "hello") ∧
      d2.lookup "sender" = some (JVal.vstr "bot")) ∧
    (JVal.vstr (uuidv4 0) : JVal) ≠ JVal.vstr "" ∧
    (JVal.vstr (uuidv4 1) : JVal) ≠ JVal.vstr (uuidv4 0) := by
  have h := chat_success_two_messages ⟨1, "alice"⟩ "hello" .undef 0 ⟨[], 0⟩ (respond "hello")
    (JVal.vstr (uuidv4 0))
    ⟨[messageCreate 0 (userMsgInput ⟨1, "alice"⟩ "hello" (JVal.vstr (uuidv4 0))),
      messageCreate 0 (botMsgInput ⟨1, "alice"⟩ "hello" (JVal.vstr (uuidv4 0)))], 1⟩
    (by decide)
  obtain ⟨⟨d1, d2, hA, hB, hC, hD, -⟩, hu⟩ := h
  obtain ⟨-, hne, -, hdist⟩ := hu rfl
  refine ⟨⟨d1, d2, hA, hB, hC, hD⟩, hne, ?_⟩
  exact hdist ⟨1, "alice"⟩ "again" 7 (respond "again") (JVal.vstr (uuidv4 1))
    ⟨[messageCreate 0 (userMsgInput ⟨1, "alice"⟩ "hello" (JVal.vstr (uuidv4 0))),
      messageCreate 0 (botMsgInput ⟨1, "alice"⟩ "hello" (JVal.vstr (uuidv4 0)))], 1⟩
    ⟨[messageCreate 0 (userMsgInput ⟨1, "alice"⟩ "hello" (JVal.vstr (uuidv4 0))),
      messageCreate 0 (botMsgInput ⟨1, "alice"⟩ "hello" (JVal.vstr (uuidv4 0))),
      messageCreate 7 (userMsgInput ⟨1, "alice"⟩ "again" (JVal.vstr (uuidv4 1))),
      messageCreate 7 (botMsgInput ⟨1, "alice"⟩ "again" (JVal.vstr (uuidv4 1)))], 2⟩
    (by decide) (by decide)

end TeenMe

namespace TeenMe

/-- C3: the auth gate answers 401 (access denied) when the
`Authorization` credential is absent, 400 (invalid token) when a
non-empty credential is present but verification fails
(malformed / bad signature / expired), and otherwise attaches the
decoded `{userId, username}` payload and lets the protected handler
(chat, profile) run with it; `authenticate` takes no store argument, so
the gate performs no Credential Store lookup. -/
theorem authenticate_gate :
    ∀ (verify : String → Option Payload),
      authenticate verify none = .denied401 ∧
      (∀ h : String, stripBearer h ≠ "" → verify (stripBearer h) = none →
        authenticate verify (some h) = .invalid400) ∧
      (∀ (h : String) (p : Payload), stripBearer h ≠ "" →
        verify (stripBearer h) = some p →
        authenticate verify (some h) = .proceed p ∧
        (∀ (lookupFails : Bool) (st : UserStore),
          meRoute verify (some h) lookupFails st = .handled (meHandler p lookupFails st)) ∧
        (∀ (m : String) (sf : SessionField) (f1 f2 : Bool) (now : Nat) (cst : ChatState),
          chatRoute verify (some h) m sf f1 f2 now cst =
            .handled (chatHandler p m sf f1 f2 now cst))) := by
  intro verify
  refine ⟨rfl, ?_, ?_⟩
  · intro h hne hv
    simp [authenticate, hne, hv]
  · intro h p hne hv
    have hauth : authenticate verify (some h) = .proceed p := by
      simp [authenticate, hne, hv]
    refine ⟨hauth, ?_, ?_⟩
    · intro lookupFails st
      simp [meRoute, protect, hauth]
    · intro m sf f1 f2 now cst
      simp [chatRoute, protect, hauth]

/-- Concrete instance of the C3 theorem: a verifier accepting exactly the
token `"tok"`, probed with a missing header, a bad token, and a valid
one. -/
theorem authenticate_gate_witness :
    authenticate (fun t => if t = "tok" then some ⟨7, "ada"⟩ else none) none = .denied401 ∧
    authenticate (fun t => if t = "tok" then some ⟨7, "ada"⟩ else none) (some "Bearer bad") =
      .invalid400 ∧
    authenticate (fun t => if t = "tok" then some ⟨7, "ada"⟩ else none) (some "Bearer tok") =
      .proceed ⟨7, "ada"⟩ := by
  refine ⟨(authenticate_gate _).1, ?_, ?_⟩
  · exact (authenticate_gate _).2.1 "Bearer bad" (by decide) (by decide)
  · exact ((authenticate_gate _).2.2 "Bearer tok" ⟨7, "ada"⟩ (by decide) (by decide)).1

/-- C9: the gate strips only the first literal `"Bearer "` occurrence: a
header that is the raw token (no occurrence of the substring) is handled
exactly as the prefixed form of the same token; the bare header
`"Bearer"` (no trailing space) is kept whole, counts as a present
non-empty token, and reaches verification (400 when invalid, proceed
when the verifier accepts it) instead of the missing-credential 401; a
second occurrence of the substring survives the stripping. -/
theorem authenticate_bearer_stripping :
    (∀ (verify : String → Option Payload) (t : String),
      containsSeq "Bearer ".data t.data = false →
      authenticate verify (some t) = authenticate verify (some ("Bearer " ++ t))) ∧
    (∀ verify : String → Option Payload,
      authenticate verify (some "Bearer") ≠ .denied401 ∧
      (verify "Bearer" = none → authenticate verify (some "Bearer") = .invalid400) ∧
      (∀ p : Payload, verify "Bearer" = some p →
        authenticate verify (some "Bearer") = .proceed p)) ∧
    stripBearer "Bearer Bearer tok" = "Bearer tok" := by
  refine ⟨?_, ?_, by decide⟩
  · intro verify t h
    simp only [authenticate, stripBearer_of_not_contains t h, stripBearer_prefixed]
  · intro verify
    have hs : stripBearer "Bearer" = "Bearer" := by decide
    refine ⟨?_, ?_, ?_⟩
    · simp only [authenticate, hs]
      cases hv : verify "Bearer" <;> simp
    · intro hv; simp [authenticate, hs, hv]
    · intro p hv; simp [authenticate, hs, hv]

/-- Concrete instance of the C9 theorem: the raw token `"abc"` and the
bare header `"Bearer"` under a verifier that rejects everything. -/
theorem authenticate_bearer_stripping_witness :
    authenticate (fun _ => none) (some "abc") =
      authenticate (fun _ => none) (some ("Bearer " ++ "abc")) ∧
    authenticate (fun _ => none) (some "Bearer") ≠ .denied401 ∧
    authenticate (fun _ => none) (some "Bearer") = .invalid400 := by
  refine ⟨authenticate_bearer_stripping.1 _ "abc" (by decide), ?_, ?_⟩
  · exact (authenticate_bearer_stripping.2.1 _).1
  · exact (authenticate_bearer_stripping.2.1 _).2.1 rfl

/-- C7: the chat response is a pure function of the input text — any two
successful chat calls with the same message, by any users, in any states,
answer the same string — and the response contains the input text as a
substring. -/
theorem chat_response_pure :
    ∀ (p1 p2 : Payload) (m : String) (sf1 sf2 : SessionField) (now1 now2 : Nat)
      (st1 st2 : ChatState) (r1 r2 : String) (sid1 sid2 : JVal) (st1' st2' : ChatState),
      chatHandler p1 m sf1 false false now1 st1 = .ok r1 sid1 st1' →
      chatHandler p2 m sf2 false false now2 st2 = .ok r2 sid2 st2' →
      r1 = r2 ∧ ∃ pre post : String, r1 = pre ++ m ++ post := by
  intro p1 p2 m sf1 sf2 now1 now2 st1 st2 r1 r2 sid1 sid2 st1' st2' h1 h2
  have e1 := chat_ok_response p1 m sf1 now1 st1 r1 sid1 st1' h1
  have e2 := chat_ok_response p2 m sf2 now2 st2 r2 sid2 st2' h2
  subst e1; subst e2
  exact ⟨rfl, "I received: \"", "\". This is a mock response.", rfl⟩

/-- Concrete instance of the C7 theorem: two calls with message `"hi"`
by different users in different states. -/
theorem chat_response_pure_witness :
    respond "hi" = respond "hi" ∧ ∃ pre post : String, respond "hi" = pre ++ "hi" ++ post :=
  chat_response_pure ⟨1, "a"⟩ ⟨2, "b"⟩ "hi" .null (.str "s") 0 9 ⟨[], 0⟩ ⟨[], 4⟩
    (respond "hi") (respond "hi") JVal.vnull (JVal.vstr "s")
    ⟨[messageCreate 0 (userMsgInput ⟨1, "a"⟩ "hi" JVal.vnull),
      messageCreate 0 (botMsgInput ⟨1, "a"⟩ "hi" JVal.vnull)], 0⟩
    ⟨[messageCreate 9 (userMsgInput ⟨2, "b"⟩ "hi" (JVal.vstr "s")),
      messageCreate 9 (botMsgInput ⟨2, "b"⟩ "hi" (JVal.vstr "s"))], 4⟩
    (by decide) (by decide)

/-- C8: the destructuring default generates a fresh `sessionId` only when
the body field is absent (`undefined`): a client-supplied string — even
the empty string — and a client-supplied `null` are kept as-is for both
appended messages and for the returned `sessionId`, with the uuid supply
untouched; only the absent case consumes the supply. -/
theorem chat_sessionId_policy :
    ∀ (p : Payload) (m : String) (now : Nat) (st : ChatState),
      (∀ s : String, ∃ (d1 d2 : Doc) (st' : ChatState),
        chatHandler p m (.str s) false false now st = .ok (respond m) (JVal.vstr s) st' ∧
        st'.uuidCounter = st.uuidCounter ∧
        st'.messages = st.messages ++ [d1, d2] ∧
        d1.lookup "sessionId" = some (JVal.vstr s) ∧
        d2.lookup "sessionId" = some (JVal.vstr s)) ∧
      (∃ (d1 d2 : Doc) (st' : ChatState),
        chatHandler p m .null false false now st = .ok (respond m) JVal.vnull st' ∧
        st'.uuidCounter = st.uuidCounter ∧
        st'.messages = st.messages ++ [d1, d2] ∧
        d1.lookup "sessionId" = some JVal.vnull ∧
        d2.lookup "sessionId" = some JVal.vnull) ∧
      (∃ st' : ChatState,
        chatHandler p m .undef false false now st =
          .ok (respond m) (JVal.vstr (uuidv4 st.uuidCounter)) st' ∧
        st'.uuidCounter = st.uuidCounter + 1) := by
  intro p m now st
  refine ⟨?_, ?_, ?_⟩
  · intro s
    refine ⟨_, _, _, chatHandler_str_eq p m s now st, rfl, rfl, ?_, ?_⟩
    · exact (userMsg_lookups p m (JVal.vstr s) now).2.2.1
    · exact (botMsg_lookups p m (JVal.vstr s) now).2.2.1
  · refine ⟨_, _, _, chatHandler_null_eq p m now st, rfl, rfl, ?_, ?_⟩
    · exact (userMsg_lookups p m JVal.vnull now).2.2.1
    · exact (botMsg_lookups p m JVal.vnull now).2.2.1
  · exact ⟨_, chatHandler_undef_eq p m now st, rfl⟩

/-- C6: a store failure at either of the two appends makes the chat call
answer the 500 chat-processing error; when the first append succeeded
and the second failed, the already-written user message remains in the
store (partial write, no rollback). -/
theorem chat_store_failure :
    ∀ (p : Payload) (m : String) (sf : SessionField) (now : Nat) (st : ChatState)
      (f1 f2 : Bool),
      (f1 = true ∨ f2 = true →
        ∃ st', chatHandler p m sf f1 f2 now st = .err500 "Chat processing failed" st') ∧
      (∀ st', chatHandler p m sf false true now st = .err500 "Chat processing failed" st' →
        ∃ d : Doc, st'.messages = st.messages ++ [d] ∧
          d.lookup "sender" = some (JVal.vstr "user") ∧
          d.lookup "text" = some (JVal.vstr m)) := by
  intro p m sf now st f1 f2
  constructor
  · intro hf
    rcases hf with hf | hf
    · subst hf; cases sf <;> exact ⟨_, rfl⟩
    · subst hf; cases f1 <;> cases sf <;> exact ⟨_, rfl⟩
  · intro st' h
    cases sf with
    | undef =>
      simp only [chatHandler] at h
      cases h
      exact ⟨_, rfl, (userMsg_lookups p m (JVal.vstr (uuidv4 st.uuidCounter)) now).1,
        (userMsg_lookups p m (JVal.vstr (uuidv4 st.uuidCounter)) now).2.1⟩
    | null =>
      simp only [chatHandler] at h
      cases h
      exact ⟨_, rfl, (userMsg_lookups p m JVal.vnull now).1,
        (userMsg_lookups p m JVal.vnull now).2.1⟩
    | str s =>
      simp only [chatHandler] at h
      cases h
      exact ⟨_, rfl, (userMsg_lookups p m (JVal.vstr s) now).1,
        (userMsg_lookups p m (JVal.vstr s) now).2.1⟩

/-- Concrete instance of the C6 theorem: a first-append failure, and a
second-append failure whose partial write keeps the user turn. -/
theorem chat_store_failure_witness :
    (∃ st', chatHandler ⟨1, "a"⟩ "hello" SessionField.null true false 0 ⟨[], 0⟩ =
      .err500 "Chat processing failed" st') ∧
    (∃ d : Doc,
      (ChatState.mk [messageCreate 0 (userMsgInput ⟨1, "a"⟩ "hello" JVal.vnull)] 0).messages =
        ([] : List Doc) ++ [d] ∧
      d.lookup "sender" = some (JVal.vstr "user") ∧
      d.lookup "text" = some (JVal.vstr "hello")) := by
  refine ⟨(chat_store_failure ⟨1, "a"⟩ "hello" .null 0 ⟨[], 0⟩ true false).1 (Or.inl rfl), ?_⟩
  exact (chat_store_failure ⟨1, "a"⟩ "hello" .null 0 ⟨[], 0⟩ false true).2
    ⟨[messageCreate 0 (userMsgInput ⟨1, "a"⟩ "hello" JVal.vnull)], 0⟩ (by decide)

end TeenMe

namespace TeenMe

/-- C4 counterexample: with two stored users — `bob` owning email `a@x`
(inserted first) and `alice` owning username `alice` — registering
`{username: alice, email: a@x}` duplicates the username of an existing
user, yet the 409 message is the email-conflict one, because the single
`$or` lookup returns the first matching record (the email match). -/
theorem register_conflict_counterexample :
    (∃ u ∈ (UserStore.mk [⟨0, "bob", "a@x", "pw", 0⟩, ⟨1, "alice", "b@x", "pw", 0⟩] 2).users,
      u.username = "alice") ∧
    register (some "alice") (some "a@x") (some "pw2") 5
      (UserStore.mk [⟨0, "bob", "a@x", "pw", 0⟩, ⟨1, "alice", "b@x", "pw", 0⟩] 2) =
      .conflict409 "Email already registered"
        (UserStore.mk [⟨0, "bob", "a@x", "pw", 0⟩, ⟨1, "alice", "b@x", "pw", 0⟩] 2) ∧
    "Email already registered" ≠ "Username already exists" := by decide

/-- C4 (amended): a registration duplicating an existing username or
email fails with 409 and creates no user record, and the conflict
message names the field on which the first stored record matching either
field coincides: the username-conflict message exactly when that found
record has the submitted username, the email-conflict message otherwise;
a registration missing any of the three fields fails with 400. -/
theorem register_conflict_amended :
    ∀ (u e pw : String) (now : Nat) (st : UserStore) (x : UserDoc),
      u ≠ "" → e ≠ "" → pw ≠ "" →
      st.users.find? (fun y => y.username = u || y.email = e) = some x →
      register (some u) (some e) (some pw) now st =
        .conflict409
          (if x.username = u then "Username already exists" else "Email already registered")
          st ∧
      (∀ up ep pp : Option String,
        up = none ∨ ep = none ∨ pp = none →
        register up ep pp now st = .badRequest400 "All fields are required" st) := by
  intro u e pw now st x hu he hpw hfind
  constructor
  · simp [register, falsy, hu, he, hpw, hfind]
  · intro up ep pp hmiss
    rcases hmiss with h | h | h <;> subst h <;> simp [register, falsy]

/-- Concrete instance of the amended C4 theorem: re-registering a taken
username yields the username-conflict 409 with the store unchanged, and
a missing username yields 400. -/
theorem register_conflict_amended_witness :
    register (some "alice") (some "c@x") (some "pw2") 5
      (UserStore.mk [⟨0, "alice", "a@x", "pw", 0⟩] 1) =
      .conflict409 "Username already exists" (UserStore.mk [⟨0, "alice", "a@x", "pw", 0⟩] 1) ∧
    register none (some "c@x") (some "pw2") 5 (UserStore.mk [⟨0, "alice", "a@x", "pw", 0⟩] 1) =
      .badRequest400 "All fields are required" (UserStore.mk [⟨0, "alice", "a@x", "pw", 0⟩] 1) := by
  have h := register_conflict_amended "alice" "c@x" "pw2" 5
    (UserStore.mk [⟨0, "alice", "a@x", "pw", 0⟩] 1) ⟨0, "alice", "a@x", "pw", 0⟩
    (by decide) (by decide) (by decide) (by decide)
  exact ⟨h.1, h.2 none (some "c@x") (some "pw2") (Or.inl rfl)⟩

/-- C5: a login whose email matches no stored user, or whose supplied
password differs (plain string comparison, no hashing) from the stored
one, answers 401; otherwise it answers 200 with the token and the
`{id, username, email}` summary, and the decoded token payload carries
the registered username of that user. -/
theorem login_credential_check :
    ∀ (e pw : String) (now : Nat) (st : UserStore),
      ((∀ u ∈ st.users, u.email ≠ e) →
        login e pw now st = .unauthorized401 "Invalid credentials") ∧
      (∀ u : UserDoc, st.users.find? (fun x => x.email = e) = some u →
        (u.password ≠ pw → login e pw now st = .unauthorized401 "Invalid credentials") ∧
        (u.password = pw →
          login e pw now st =
            .ok200 (jwtSign ⟨u.id, u.username⟩ now) ⟨u.id, u.username, u.email⟩ ∧
          (jwtSign ⟨u.id, u.username⟩ now).payload.username = u.username)) := by
  intro e pw now st
  constructor
  · intro hnone
    have hfind : st.users.find? (fun x => x.email = e) = none := by
      rw [List.find?_eq_none]
      intro x hx
      simp [hnone x hx]
    simp [login, hfind]
  · intro u hfind
    constructor
    · intro hne
      simp [login, hfind, hne]
    · intro heq
      constructor
      · simp [login, hfind, heq]
      · rfl

/-- Concrete instance of the C5 theorem: a stored user `alice`, probed
with a wrong password, the right password, and an unknown email. -/
theorem login_credential_check_witness :
    login "a@x" "nope" 5 (UserStore.mk [⟨0, "alice", "a@x", "pw", 0⟩] 1) =
      .unauthorized401 "Invalid credentials" ∧
    login "a@x" "pw" 5 (UserStore.mk [⟨0, "alice", "a@x", "pw", 0⟩] 1) =
      .ok200 (jwtSign ⟨0, "alice"⟩ 5) ⟨0, "alice", "a@x"⟩ ∧
    (jwtSign ⟨0, "alice"⟩ 5).payload.username = "alice" ∧
    login "b@x" "pw" 5 (UserStore.mk [⟨0, "alice", "a@x", "pw", 0⟩] 1) =
      .unauthorized401 "Invalid credentials" := by
  have h2 := (login_credential_check "a@x" "pw" 5
    (UserStore.mk [⟨0, "alice", "a@x", "pw", 0⟩] 1)).2 ⟨0, "alice", "a@x", "pw", 0⟩
    (by decide) |>.2 rfl
  have hbad := (login_credential_check "a@x" "nope" 5
    (UserStore.mk [⟨0, "alice", "a@x", "pw", 0⟩] 1)).2 ⟨0, "alice", "a@x", "pw", 0⟩
    (by decide) |>.1 (by decide)
  have hmiss := (login_credential_check "b@x" "pw" 5
    (UserStore.mk [⟨0, "alice", "a@x", "pw", 0⟩] 1)).1 (by decide)
  exact ⟨hbad, h2.1, h2.2, hmiss⟩

/-- C10: a profile request with a valid token whose `userId` matches no
stored user answers 200 with a `null` body (never a 404 and never a
500); the 500 branch is taken exactly when the lookup itself fails. -/
theorem me_unknown_user_200_null :
    ∀ (verify : String → Option Payload) (h : String) (p : Payload) (st : UserStore),
      stripBearer h ≠ "" → verify (stripBearer h) = some p →
      (∀ u ∈ st.users, u.id ≠ p.userId) →
      meRoute verify (some h) false st = .handled (.ok200 none) ∧
      (∀ msg : String, meRoute verify (some h) false st ≠ .handled (.err500 msg)) ∧
      meRoute verify (some h) true st = .handled (.err500 "Server error") := by
  intro verify h p st hne hv hno
  have hauth : authenticate verify (some h) = .proceed p := by
    simp [authenticate, hne, hv]
  have hfind : st.users.find? (fun x => x.id = p.userId) = none := by
    rw [List.find?_eq_none]
    intro x hx
    simp [hno x hx]
  refine ⟨?_, ?_, ?_⟩
  · simp [meRoute, protect, hauth, meHandler, hfind]
  · intro msg
    simp [meRoute, protect, hauth, meHandler, hfind]
  · simp [meRoute, protect, hauth, meHandler]

/-- Concrete instance of the C10 theorem: a valid token for an unknown
`userId` against a store holding only `alice`. -/
theorem me_unknown_user_200_null_witness :
    meRoute (fun t => if t = "tok" then some ⟨9, "ghost"⟩ else none) (some "Bearer tok") false
      (UserStore.mk [⟨0, "alice", "a@x", "pw", 0⟩] 1) = .handled (.ok200 none) ∧
    meRoute (fun t => if t = "tok" then some ⟨9, "ghost"⟩ else none) (some "Bearer tok") true
      (UserStore.mk [⟨0, "alice", "a@x", "pw", 0⟩] 1) =
      .handled (.err500 "Server error") := by
  have h := me_unknown_user_200_null (fun t => if t = "tok" then some ⟨9, "ghost"⟩ else none)
    "Bearer tok" ⟨9, "ghost"⟩ (UserStore.mk [⟨0, "alice", "a@x", "pw", 0⟩] 1)
    (by decide) (by decide) (by decide)
  exact ⟨h.1, h.2.2⟩

end TeenMe
